import Mathlib

/-!
Shallow embedding of the FreakSearch claim-verification pipeline
(`model.py`).  External dependencies (Google Custom Search, HTTP
fetching, HTML paragraph extraction, the OCR engine, and the Gemini
language model) are modelled as an environment of oracles, each of
which may either return a value or raise (an `Except.error` carrying
the stringified exception).  Every translated function is written in
explicit state-passing style over an event trace, so that the absence
of network or model calls is an observable property, and `try/except`
blocks of the source become matches on the oracle outcome.
-/

namespace FreakSearch

/-- Stringified Python exception payload. -/
abbrev Exc := String

/-- Observable external calls made by the pipeline. -/
inductive Event where
  | searchE (query : String)
  | fetchE (url : String)
  | genE (prompt : String)
  | ocrE
deriving DecidableEq, Repr

/-- Trace of external calls, in order. -/
abbrev Trace := List Event

/-- Result of a stage: the value or a propagating exception, together
with the trace of external calls made so far. -/
abbrev PM (α : Type) := Trace → Except Exc α × Trace

/-- Process configuration: the three environment variables read at
module load (`os.getenv` yields `None` when unset, and Python
truthiness also treats the empty string as absent). -/
structure Config where
  GOOGLE_API_KEY : Option String
  SEARCH_ENGINE_ID : Option String
  GEMINI_API_KEY : Option String

/-- Python truthiness of an optional string: `None` and `""` are falsy. -/
def pyTruthy : Option String → Bool
  | none => false
  | some s => !(s == "")

/-- Python truthiness of an optional byte buffer: `None` and `b""` are
falsy. -/
def pyBytesTruthy : Option (List Nat) → Bool
  | none => false
  | some bs => !bs.isEmpty

/-- One item of the Custom Search response: a dict whose relevant keys
(`title`, `link`, `snippet`) may each be missing. -/
structure SearchResult where
  title : Option String
  link : Option String
  snippet : Option String

/-- HTTP response as seen by `requests.get`: a status code and the raw
body.  `requests.get` does not raise on a non-200 status. -/
structure HttpResp where
  status : Nat
  content : String

/-- The external world: each field models one provider call site and
may raise. -/
structure Env where
  searchRun : String → Nat → Except Exc (List SearchResult)
  httpGet : String → Except Exc HttpResp
  parseParagraphs : String → Except Exc (List String)
  ocrRun : List Nat → Except Exc String
  genContent : String → Except Exc String

/-- Python `str.strip()`: drop leading and trailing whitespace.
Defined structurally on the character list so that it evaluates by
kernel reduction. -/
def pyStrip (s : String) : String :=
  ⟨((s.data.dropWhile Char.isWhitespace).reverse.dropWhile
      Char.isWhitespace).reverse⟩

/-- Python `str.lower()` on the ASCII range. -/
def pyLower (s : String) : String := ⟨s.data.map Char.toLower⟩

/-- Python `str.replace(chr(34), "")`: remove every double-quote
character (replacement of a one-character pattern by the empty string
is character filtering). -/
def pyDropQuotes (s : String) : String :=
  ⟨s.data.filter (fun c => !(c == '"'))⟩

/-- Occurrence of `pat` as a contiguous sublist of `s`. -/
def subOccurs (pat : List Char) : List Char → Bool
  | [] => pat.isEmpty
  | c :: rest => pat.isPrefixOf (c :: rest) || subOccurs pat rest

/-- Python `pat in s` substring test. -/
def containsSub (s pat : String) : Bool := subOccurs pat.data s.data

/-- Python `sep.join(l)`. -/
def pyJoin (sep : String) : List String → String
  | [] => ""
  | [s] => s
  | s :: rest => s ++ sep ++ pyJoin sep rest

/-- Python `s[:n]` character-count truncation. -/
def pyTake (n : Nat) (s : String) : String := ⟨s.data.take n⟩

/-- A single-quote character, for rendering Python list literals. -/
def squote : String := String.singleton (Char.ofNat 39)

/-- Python `str` of a list of strings, as interpolated into an f-string. -/
def pyStrList (l : List String) : String :=
  "[" ++ String.intercalate ", " (l.map (fun s => squote ++ s ++ squote)) ++ "]"

/-- Python f-string rendering of an optional string (`None` prints as
the word None). -/
def pyOptStr : Option String → String
  | some s => s
  | none => "None"

/-- Python truthiness filter on `result.get("link")`: a missing or
empty link is unusable. -/
def pyLink : Option String → Option String
  | some s => if s = "" then none else some s
  | none => none

/-- Translation of `search_the_web_google` (model.py lines 24-33):
returns `[]` immediately when either search credential is falsy, and
otherwise issues the provider call with `num=3`, catching any
exception as `[]`. -/
def search_the_web_google (cfg : Config) (env : Env) (query : String) :
    PM (List SearchResult) := fun t =>
  if !(pyTruthy cfg.GOOGLE_API_KEY) || !(pyTruthy cfg.SEARCH_ENGINE_ID) then
    (.ok [], t)
  else
    match env.searchRun query 3 with
    | .ok items => (.ok items, t ++ [Event.searchE query])
    | .error _ => (.ok [], t ++ [Event.searchE query])

/-- Translation of `scrape_url_content` (model.py lines 36-45): GET the
URL, parse paragraph elements, join their texts with single spaces and
truncate to 2500 characters; any exception yields `""`.  The response
status is never inspected. -/
def scrape_url_content (env : Env) (url : String) : PM String := fun t =>
  let t1 := t ++ [Event.fetchE url]
  match env.httpGet url with
  | .error _ => (.ok "", t1)
  | .ok resp =>
    match env.parseParagraphs resp.content with
    | .error _ => (.ok "", t1)
    | .ok paragraphs =>
      (.ok (pyTake 2500 (pyJoin " " paragraphs)), t1)

/-- Translation of `get_text_from_image` (model.py lines 48-54): decode
plus OCR, stripping the recognized text; any exception yields `None`.
On success the stripped text is returned even when it is empty. -/
def get_text_from_image (env : Env) (image_bytes : List Nat) :
    PM (Option String) := fun t =>
  let t1 := t ++ [Event.ocrE]
  match env.ocrRun image_bytes with
  | .ok s => (.ok (some (pyStrip s)), t1)
  | .error _ => (.ok none, t1)

/-- The fixed greeting literals of `recognize_intent` (model.py line 58). -/
def greetings : List String :=
  ["hello", "hi", "vanakkam", "hai", "good morning", "good evening"]

/-- The classification prompt built by `recognize_intent` (model.py
lines 67-73). -/
def intentPrompt (user_input : String) : String :=
  "\n        Analyze the user input and classify it into:\n        1. fact_checking_claim\n        2. general_question\n        User Input: \"" ++
    user_input ++ "\"\n        Category:\n        "

/-- Translation of `recognize_intent` (model.py lines 57-79): greeting
literals first (no external call), then the missing-credential
fallback, then one model call whose response is stripped, lowercased
and quote-stripped and tested for the `fact_checking_claim` substring;
a model exception falls back to `fact_checking_claim`. -/
def recognize_intent (cfg : Config) (env : Env) (user_input : String) :
    PM String := fun t =>
  if greetings.contains (pyLower (pyStrip user_input)) then
    (.ok "greeting", t)
  else if !(pyTruthy cfg.GEMINI_API_KEY) then
    (.ok "fact_checking_claim", t)
  else
    let t1 := t ++ [Event.genE (intentPrompt user_input)]
    match env.genContent (intentPrompt user_input) with
    | .ok resp =>
      let intent := pyDropQuotes (pyLower (pyStrip resp))
      (.ok (if containsSub intent "fact_checking_claim" then
              "fact_checking_claim"
            else
              "general_question"), t1)
    | .error _ => (.ok "fact_checking_claim", t1)

/-- One context block of the evidence loop (model.py line 92). -/
def sourceEntry (i : Nat) (result : SearchResult) (url content : String) :
    String :=
  "Source [" ++ toString (i + 1) ++ "]: " ++ pyOptStr result.title ++
    "\nURL: " ++ url ++ "\nContent: " ++ content ++ "\n\n"

/-- Translation of the evidence-gathering loop of `verify_misinformation`
(model.py lines 87-93): for each enumerated result with a truthy link,
scrape it, append the context block and retain the URL; results
without a usable link are skipped. -/
def fetchLoop (env : Env) :
    List (Nat × SearchResult) → String → List String →
    PM (String × List String)
  | [], context, sources => fun t => (.ok (context, sources), t)
  | (i, result) :: rest, context, sources => fun t =>
    match pyLink result.link with
    | some url =>
      match scrape_url_content env url t with
      | (.ok content, t1) =>
        fetchLoop env rest (context ++ sourceEntry i result url content)
          (sources ++ [url]) t1
      | (.error e, t1) => (.error e, t1)
    | none => fetchLoop env rest context sources t

/-- The synthesis prompt built by `verify_misinformation` (model.py
lines 100-109), sources truncated to the first three. -/
def verifyPrompt (claim context : String) (sources : List String) : String :=
  "\n        You are a multilingual Misinformation Analyst.\n        USER CLAIM: \"" ++
    claim ++ "\"\n        CONTEXT: " ++ context ++
    "\n        INSTRUCTIONS:\n        1.Analyze the language of the *USER" ++
    squote ++
    "S CLAIM.SPECIAL RULE:If the text is in the Roman alphabet,you MUST assume the language is **ENGLISH*\n        2. Analyze context and give verdict.\n        3. Report format: \"Verdict: [Factually True/False/Misleading/Unverified]\"\n        Sources: " ++
    pyStrList (sources.take 3) ++ "\n        "

/-- The fixed diagnostic returned when search yields nothing
(model.py line 85). -/
def noResultsMsg : String :=
  "Error: Could not fetch search results. Check API keys or quota."

/-- The fixed diagnostic returned when evidence exists but the model
credential is missing (model.py line 96). -/
def noGeminiMsg : String :=
  "Google search fetched content, but Gemini API key missing for analysis."

/-- Translation of `verify_misinformation` (model.py lines 82-113):
search, bail out on an empty result list, gather evidence, bail out
when the model credential is missing, then one model call whose
exception is rendered as a diagnostic string. -/
def verify_misinformation (cfg : Config) (env : Env) (claim : String) :
    PM String := fun t =>
  match search_the_web_google cfg env claim t with
  | (.error e, t1) => (.error e, t1)
  | (.ok search_results, t1) =>
    if search_results.isEmpty then
      (.ok noResultsMsg, t1)
    else
      match fetchLoop env search_results.enum "" [] t1 with
      | (.error e, t2) => (.error e, t2)
      | (.ok (context, sources), t2) =>
        if !(pyTruthy cfg.GEMINI_API_KEY) then
          (.ok noGeminiMsg, t2)
        else
          let t3 := t2 ++ [Event.genE (verifyPrompt claim context sources)]
          match env.genContent (verifyPrompt claim context sources) with
          | .ok resp => (.ok resp, t3)
          | .error e => (.ok ("Gemini analysis error: " ++ e), t3)

/-- The fixed greeting response (model.py line 129). -/
def greetingMsg : String := "Hello! I am FreakSearch. Provide a claim to verify."

/-- The fixed refusal for general questions (model.py line 133). -/
def onlyClaimsMsg : String := "I am FreakSearch. I only verify news claims."

/-- Dispatch on resolved text (model.py lines 124-133): reject empty
input, classify, then answer per intent. -/
def handlerTail (cfg : Config) (env : Env) (text : String) : PM String :=
  fun t =>
  if text = "" then (.ok "Error: No input provided.", t)
  else
    match recognize_intent cfg env text t with
    | (.error e, t1) => (.error e, t1)
    | (.ok intent, t1) =>
      if intent = "greeting" then (.ok greetingMsg, t1)
      else if intent = "fact_checking_claim" then
        verify_misinformation cfg env text t1
      else (.ok onlyClaimsMsg, t1)

/-- Translation of `freaksearch_handler` (model.py lines 116-133): a
truthy image payload is OCRed, a falsy OCR result (`None` or `""`)
terminates with the fixed image error, otherwise the extracted or raw
text flows into the dispatch. -/
def freaksearch_handler (cfg : Config) (env : Env) (user_input : String)
    (image_bytes : Option (List Nat)) : PM String := fun t =>
  if pyBytesTruthy image_bytes then
    match get_text_from_image env (image_bytes.getD []) t with
    | (.error e, t1) => (.error e, t1)
    | (.ok textOpt, t1) =>
      match textOpt with
      | none => (.ok "Error: No text read from image.", t1)
      | some s =>
        if s = "" then (.ok "Error: No text read from image.", t1)
        else handlerTail cfg env s t1
  else handlerTail cfg env user_input t

/-- Whether an event is a language-model call. -/
def Event.isGen : Event → Bool
  | .genE _ => true
  | _ => false

/-- Number of language-model calls in a trace. -/
def genCount (t : Trace) : Nat := t.countP Event.isGen

/-- A configuration with every credential absent. -/
def cfgNone : Config := ⟨none, none, none⟩

/-- An environment in which every provider call raises. -/
def env0 : Env where
  searchRun := fun _ _ => .error "no network"
  httpGet := fun _ => .error "no network"
  parseParagraphs := fun _ => .ok []
  ocrRun := fun _ => .error "no ocr"
  genContent := fun _ => .error "no model"

theorem scrape_total (env : Env) (url : String) (t : Trace) :
    ∃ s, scrape_url_content env url t = (.ok s, t ++ [Event.fetchE url]) := by
  cases h : env.httpGet url with
  | error e => exact ⟨"", by simp [scrape_url_content, h]⟩
  | ok resp =>
    cases h2 : env.parseParagraphs resp.content with
    | error e => exact ⟨"", by simp [scrape_url_content, h, h2]⟩
    | ok paragraphs =>
      exact ⟨pyTake 2500 (pyJoin " " paragraphs), by
        simp [scrape_url_content, h, h2]⟩

theorem search_total (cfg : Config) (env : Env) (query : String) (t : Trace) :
    ∃ rs t1, search_the_web_google cfg env query t = (.ok rs, t1) ∧
      (t1 = t ∨ t1 = t ++ [Event.searchE query]) := by
  by_cases hk : (!(pyTruthy cfg.GOOGLE_API_KEY) ||
      !(pyTruthy cfg.SEARCH_ENGINE_ID)) = true
  · exact ⟨[], t, by simp [search_the_web_google, hk], Or.inl rfl⟩
  · cases h : env.searchRun query 3 with
    | ok items =>
      exact ⟨items, _, by simp [search_the_web_google, hk, h], Or.inr rfl⟩
    | error e =>
      exact ⟨[], _, by simp [search_the_web_google, hk, h], Or.inr rfl⟩

theorem recognize_total (cfg : Config) (env : Env) (user_input : String)
    (t : Trace) :
    ∃ intent t1, recognize_intent cfg env user_input t = (.ok intent, t1) := by
  by_cases hg : pyLower (pyStrip user_input) ∈ greetings
  · exact ⟨"greeting", t, by simp [recognize_intent, hg]⟩
  · by_cases hk : pyTruthy cfg.GEMINI_API_KEY = true
    · cases h : env.genContent (intentPrompt user_input) with
      | ok resp =>
        exact ⟨(if containsSub (pyDropQuotes (pyLower (pyStrip resp)))
            "fact_checking_claim" then "fact_checking_claim"
          else "general_question"),
          t ++ [Event.genE (intentPrompt user_input)], by
            simp [recognize_intent, hg, hk, h]⟩
      | error e =>
        exact ⟨"fact_checking_claim",
          t ++ [Event.genE (intentPrompt user_input)], by
            simp [recognize_intent, hg, hk, h]⟩
    · have hk2 : pyTruthy cfg.GEMINI_API_KEY = false := by simpa using hk
      exact ⟨"fact_checking_claim", t, by simp [recognize_intent, hg, hk2]⟩

theorem fetchLoop_spec (env : Env) (pairs : List (Nat × SearchResult)) :
    ∀ context sources t, ∃ ctx2 t2,
      fetchLoop env pairs context sources t =
        (.ok (ctx2, sources ++ pairs.filterMap (fun p => pyLink p.2.link)),
          t2) := by
  induction pairs with
  | nil => exact fun context sources t => ⟨context, t, by simp [fetchLoop]⟩
  | cons p rest ih =>
    intro context sources t
    obtain ⟨i, result⟩ := p
    cases hl : pyLink result.link with
    | none =>
      obtain ⟨ctx2, t2, hrec⟩ := ih context sources t
      exact ⟨ctx2, t2, by simp [fetchLoop, hl, hrec]⟩
    | some url =>
      obtain ⟨content, hs⟩ := scrape_total env url t
      obtain ⟨ctx2, t2, hrec⟩ :=
        ih (context ++ sourceEntry i result url content) (sources ++ [url])
          (t ++ [Event.fetchE url])
      exact ⟨ctx2, t2, by simp [fetchLoop, hl, hs, hrec]⟩

theorem verify_total (cfg : Config) (env : Env) (claim : String) (t : Trace) :
    ∃ s t2, verify_misinformation cfg env claim t = (.ok s, t2) := by
  obtain ⟨rs, t1, hs, -⟩ := search_total cfg env claim t
  obtain ⟨ctx2, t2, hloop⟩ := fetchLoop_spec env rs.enum "" [] t1
  simp only [List.nil_append] at hloop
  cases hrs : rs.isEmpty with
  | true => exact ⟨noResultsMsg, t1, by simp [verify_misinformation, hs, hrs]⟩
  | false =>
    by_cases hk : pyTruthy cfg.GEMINI_API_KEY = true
    · cases h : env.genContent (verifyPrompt claim ctx2
          (rs.enum.filterMap (fun p => pyLink p.2.link))) with
      | ok resp =>
        exact ⟨resp, t2 ++ [Event.genE (verifyPrompt claim ctx2
            (rs.enum.filterMap (fun p => pyLink p.2.link)))], by
          simp [verify_misinformation, hs, hrs, hloop, hk, h]⟩
      | error e =>
        exact ⟨"Gemini analysis error: " ++ e,
          t2 ++ [Event.genE (verifyPrompt claim ctx2
            (rs.enum.filterMap (fun p => pyLink p.2.link)))], by
          simp [verify_misinformation, hs, hrs, hloop, hk, h]⟩
    · have hk2 : pyTruthy cfg.GEMINI_API_KEY = false := by simpa using hk
      exact ⟨noGeminiMsg, t2, by
        simp [verify_misinformation, hs, hrs, hloop, hk2]⟩

theorem handlerTail_total (cfg : Config) (env : Env) (text : String)
    (t : Trace) :
    ∃ s t2, handlerTail cfg env text t = (.ok s, t2) := by
  by_cases ht : text = ""
  · exact ⟨"Error: No input provided.", t, by simp [handlerTail, ht]⟩
  · obtain ⟨intent, t1, hr⟩ := recognize_total cfg env text t
    by_cases h1 : intent = "greeting"
    · exact ⟨greetingMsg, t1, by simp [handlerTail, ht, hr, h1]⟩
    · by_cases h2 : intent = "fact_checking_claim"
      · obtain ⟨s, t2, hv⟩ := verify_total cfg env text t1
        exact ⟨s, t2, by simp [handlerTail, ht, hr, h1, h2, hv]⟩
      · exact ⟨onlyClaimsMsg, t1, by simp [handlerTail, ht, hr, h1, h2]⟩

theorem gtfi_total (env : Env) (image_bytes : List Nat) (t : Trace) :
    ∃ r, get_text_from_image env image_bytes t =
      (.ok r, t ++ [Event.ocrE]) := by
  cases h : env.ocrRun image_bytes with
  | ok s => exact ⟨some (pyStrip s), by simp [get_text_from_image, h]⟩
  | error e => exact ⟨none, by simp [get_text_from_image, h]⟩

theorem handler_total (cfg : Config) (env : Env) (user_input : String)
    (image_bytes : Option (List Nat)) (t : Trace) :
    ∃ s t2, freaksearch_handler cfg env user_input image_bytes t =
      (.ok s, t2) := by
  by_cases hb : pyBytesTruthy image_bytes = true
  · obtain ⟨r, hg⟩ := gtfi_total env (image_bytes.getD []) t
    cases r with
    | none =>
      exact ⟨"Error: No text read from image.", t ++ [Event.ocrE], by
        simp [freaksearch_handler, hb, hg]⟩
    | some s =>
      by_cases hs : s = ""
      · exact ⟨"Error: No text read from image.", t ++ [Event.ocrE], by
          simp [freaksearch_handler, hb, hg, hs]⟩
      · obtain ⟨v, t2, hd⟩ :=
          handlerTail_total cfg env s (t ++ [Event.ocrE])
        exact ⟨v, t2, by simp [freaksearch_handler, hb, hg, hs, hd]⟩
  · have hb2 : pyBytesTruthy image_bytes = false := by simpa using hb
    obtain ⟨v, t2, hd⟩ := handlerTail_total cfg env user_input t
    exact ⟨v, t2, by simp [freaksearch_handler, hb2, hd]⟩

/-- C1: for every configuration, environment (each dependency free to
raise), user text, optional image payload and starting trace, the
pipeline entry point `freaksearch_handler` returns a string (an
`Except.ok` value): exceptions of OCR, intent classification, search,
per-URL fetching and model synthesis never escape. -/
theorem claim_C1 (cfg : Config) (env : Env) (user_input : String)
    (image_bytes : Option (List Nat)) (t : Trace) :
    ∃ s t2, freaksearch_handler cfg env user_input image_bytes t =
      (.ok s, t2) :=
  handler_total cfg env user_input image_bytes t

/-- C2: whenever the search stage yields an empty result list, the
verdict synthesizer `verify_misinformation` returns the fixed
"could not fetch search results" diagnostic and the trace contains no
new language-model call. -/
theorem claim_C2 (cfg : Config) (env : Env) (claim : String) (t t1 : Trace)
    (h : search_the_web_google cfg env claim t = (.ok [], t1)) :
    verify_misinformation cfg env claim t = (.ok noResultsMsg, t1) ∧
      genCount t1 = genCount t := by
  refine ⟨by simp [verify_misinformation, h], ?_⟩
  obtain ⟨rs, t1x, hs, hd⟩ := search_total cfg env claim t
  rw [h] at hs
  obtain ⟨-, ht⟩ := Prod.mk.injEq .. ▸ hs
  rcases ht ▸ hd with h1 | h1 <;>
    simp [h1, genCount, List.countP_append, Event.isGen]

/-- Witness for C2 at a concrete input: with no credentials configured
the search stage returns the empty list, and the synthesizer answers
the fixed diagnostic with no model call. -/
theorem claim_C2_witness :
    verify_misinformation cfgNone env0 "The moon landing was faked" [] =
      (.ok noResultsMsg, []) ∧ genCount [] = genCount [] :=
  claim_C2 cfgNone env0 "The moon landing was faked" [] [] rfl

/-- C3: when either search credential is absent, `search_the_web_google`
returns the empty list with the trace unchanged (no network call), and
the claim-verification path returns the fixed "could not fetch search
results" message, again with the trace unchanged (no model-evidence
call). -/
theorem claim_C3 (cfg : Config) (env : Env) (claim : String) (t : Trace)
    (h : pyTruthy cfg.GOOGLE_API_KEY = false ∨
      pyTruthy cfg.SEARCH_ENGINE_ID = false) :
    search_the_web_google cfg env claim t = (.ok [], t) ∧
      verify_misinformation cfg env claim t = (.ok noResultsMsg, t) := by
  have hs : search_the_web_google cfg env claim t = (.ok [], t) := by
    rcases h with h | h <;> simp [search_the_web_google, h]
  exact ⟨hs, by simp [verify_misinformation, hs]⟩

/-- Witness for C3 at a concrete input: the all-absent configuration. -/
theorem claim_C3_witness :
    search_the_web_google cfgNone env0 "claim" [] = (.ok [], []) ∧
      verify_misinformation cfgNone env0 "claim" [] = (.ok noResultsMsg, []) :=
  claim_C3 cfgNone env0 "claim" [] (Or.inl rfl)

/-- An environment whose server answers every GET with a 404 page that
still carries a paragraph. -/
def envC4 : Env where
  searchRun := fun _ _ => .ok []
  httpGet := fun _ => .ok ⟨404, "<p>oops</p>"⟩
  parseParagraphs := fun _ => .ok ["oops"]
  ocrRun := fun _ => .error "no ocr"
  genContent := fun _ => .error "no model"

/-- C4, counterexample to the claim as stated: a non-200 HTTP status is
not a failure for `scrape_url_content` — the 404 body is parsed like
any other response, so the function returns its paragraph text, not
the empty string. -/
theorem claim_C4_counterexample :
    envC4.httpGet "http://u" = .ok ⟨404, "<p>oops</p>"⟩ ∧
    (404 : Nat) ≠ 200 ∧
    scrape_url_content envC4 "http://u" [] =
      (.ok "oops", [Event.fetchE "http://u"]) ∧
    ("oops" : String) ≠ "" := by
  refine ⟨rfl, by decide, rfl, by decide⟩

/-- C4 (amended): `scrape_url_content` always returns a string and
never lets an exception escape; a raising failure of the GET (timeout,
connection error) or of the HTML parse yields the empty string for
that URL; and the evidence-gathering loop never aborts, whatever the
per-URL outcomes.  A non-200 response is not treated as a failure: its
body is parsed like a success. -/
theorem claim_C4_amended (env : Env) (url : String) (t : Trace) :
    (∃ s, scrape_url_content env url t = (.ok s, t ++ [Event.fetchE url])) ∧
    (∀ e, env.httpGet url = .error e →
      scrape_url_content env url t = (.ok "", t ++ [Event.fetchE url])) ∧
    (∀ resp e, env.httpGet url = .ok resp →
      env.parseParagraphs resp.content = .error e →
      scrape_url_content env url t = (.ok "", t ++ [Event.fetchE url])) ∧
    (∀ pairs context sources t0, ∃ out t2,
      fetchLoop env pairs context sources t0 = (.ok out, t2)) := by
  refine ⟨scrape_total env url t, ?_, ?_, ?_⟩
  · intro e he
    simp [scrape_url_content, he]
  · intro resp e h1 h2
    simp [scrape_url_content, h1, h2]
  · intro pairs context sources t0
    obtain ⟨ctx2, t2, h⟩ := fetchLoop_spec env pairs context sources t0
    exact ⟨(ctx2, sources ++ pairs.filterMap (fun p => pyLink p.2.link)),
      t2, h⟩

/-- Witness for C4 (amended) at a concrete input: a raising GET yields
the empty string. -/
theorem claim_C4_witness :
    scrape_url_content env0 "http://u" [] =
      (.ok "", [Event.fetchE "http://u"]) :=
  (claim_C4_amended env0 "http://u" []).2.1 "no network" rfl

/-- An environment whose OCR engine recognizes only whitespace. -/
def envC5 : Env where
  searchRun := fun _ _ => .ok []
  httpGet := fun _ => .error "no network"
  parseParagraphs := fun _ => .ok []
  ocrRun := fun _ => .ok "   "
  genContent := fun _ => .error "no model"

/-- C5, counterexample to the claim as stated: when the recognized text
is whitespace only, `get_text_from_image` returns the empty string
(the trimmed OCR output), not the null result. -/
theorem claim_C5_counterexample :
    envC5.ocrRun [1] = .ok "   " ∧
    pyStrip "   " = "" ∧
    get_text_from_image envC5 [1] [] = (.ok (some ""), [Event.ocrE]) ∧
    (some "" : Option String) ≠ none := by
  refine ⟨rfl, rfl, rfl, by decide⟩

/-- C5 (amended): `get_text_from_image` never propagates a decode/OCR
exception — any raise collapses to the null result — and on OCR
success it returns the trimmed recognized text, which is the empty
string (not null) when nothing but whitespace was recognized; the
caller treats both as "no text". -/
theorem claim_C5_amended (env : Env) (image_bytes : List Nat) (t : Trace) :
    (∀ e, env.ocrRun image_bytes = .error e →
      get_text_from_image env image_bytes t =
        (.ok none, t ++ [Event.ocrE])) ∧
    (∀ s, env.ocrRun image_bytes = .ok s →
      get_text_from_image env image_bytes t =
        (.ok (some (pyStrip s)), t ++ [Event.ocrE])) := by
  constructor
  · intro e he
    simp [get_text_from_image, he]
  · intro s hs
    simp [get_text_from_image, hs]

/-- Witness for C5 (amended) at a concrete input: a raising OCR engine
yields the null result. -/
theorem claim_C5_witness :
    get_text_from_image env0 [1] [] = (.ok none, [Event.ocrE]) :=
  (claim_C5_amended env0 [1] []).1 "no ocr" rfl

/-- C6: an input whose trimmed, lowercased text is one of the greeting
literals is classified `greeting` with the trace unchanged (no network
or model call), and the pipeline terminates with the fixed greeting
response, again with the trace unchanged (zero search, fetch or model
calls). -/
theorem claim_C6 (cfg : Config) (env : Env) (user_input : String) (t : Trace)
    (h : pyLower (pyStrip user_input) ∈ greetings) :
    recognize_intent cfg env user_input t = (.ok "greeting", t) ∧
    freaksearch_handler cfg env user_input none t = (.ok greetingMsg, t) := by
  have hne : user_input ≠ "" := by
    intro he
    rw [he] at h
    have hred : pyLower (pyStrip "") = "" := rfl
    rw [hred] at h
    exact absurd h (by decide)
  have hr : recognize_intent cfg env user_input t = (.ok "greeting", t) := by
    simp [recognize_intent, h]
  refine ⟨hr, ?_⟩
  simp [freaksearch_handler, pyBytesTruthy, handlerTail, hne, hr]

/-- Witness for C6 at a concrete input: a padded, capitalized greeting. -/
theorem claim_C6_witness :
    recognize_intent cfgNone env0 "  Hello " [] = (.ok "greeting", []) ∧
    freaksearch_handler cfgNone env0 "  Hello " none [] =
      (.ok greetingMsg, []) :=
  claim_C6 cfgNone env0 "  Hello " [] (by decide)

/-- A configuration in which only the language-model credential is set. -/
def cfgG : Config := ⟨none, none, some "gemini-key"⟩

/-- An environment whose language model answers the classification
label verbatim. -/
def envC7 : Env where
  searchRun := fun _ _ => .ok []
  httpGet := fun _ => .error "no network"
  parseParagraphs := fun _ => .ok []
  ocrRun := fun _ => .error "no ocr"
  genContent := fun _ => .ok "fact_checking_claim"

/-- C7: for a non-greeting input, classification returns
`fact_checking_claim` when no model credential is configured and when
the model call raises; on a successful model call it returns
`fact_checking_claim` exactly when the trimmed, lowercased,
quote-stripped response contains the `fact_checking_claim` substring,
and `general_question` otherwise. -/
theorem claim_C7 (cfg : Config) (env : Env) (user_input : String) (t : Trace)
    (hg : pyLower (pyStrip user_input) ∉ greetings) :
    (pyTruthy cfg.GEMINI_API_KEY = false →
      recognize_intent cfg env user_input t =
        (.ok "fact_checking_claim", t)) ∧
    (∀ e, pyTruthy cfg.GEMINI_API_KEY = true →
      env.genContent (intentPrompt user_input) = .error e →
      recognize_intent cfg env user_input t =
        (.ok "fact_checking_claim",
          t ++ [Event.genE (intentPrompt user_input)])) ∧
    (∀ resp, pyTruthy cfg.GEMINI_API_KEY = true →
      env.genContent (intentPrompt user_input) = .ok resp →
      recognize_intent cfg env user_input t =
        (.ok (if containsSub (pyDropQuotes (pyLower (pyStrip resp)))
            "fact_checking_claim" then "fact_checking_claim"
          else "general_question"),
          t ++ [Event.genE (intentPrompt user_input)])) := by
  refine ⟨?_, ?_, ?_⟩
  · intro hk
    simp [recognize_intent, hg, hk]
  · intro e hk he
    simp [recognize_intent, hg, hk, he]
  · intro resp hk hr
    simp [recognize_intent, hg, hk, hr]

/-- Witness for C7 at a concrete input: model configured, response
equal to the label. -/
theorem claim_C7_witness :
    pyTruthy cfgG.GEMINI_API_KEY = true ∧
    recognize_intent cfgG envC7 "The earth is flat" [] =
      (.ok "fact_checking_claim",
        [Event.genE (intentPrompt "The earth is flat")]) :=
  ⟨rfl, ((claim_C7 cfgG envC7 "The earth is flat" [] (by decide)).2.2
    "fact_checking_claim" rfl rfl).trans rfl⟩

/-- A configuration in which both search credentials are set. -/
def cfgGoogle : Config := ⟨some "gkey", some "cx", none⟩

/-- Two search results: one with a usable link, one with no link. -/
def rsC8 : List SearchResult :=
  [⟨some "T1", some "http://a", none⟩, ⟨none, none, none⟩]

/-- An environment whose search succeeds with `rsC8` but whose fetches
all time out. -/
def envC8 : Env where
  searchRun := fun _ _ => .ok rsC8
  httpGet := fun _ => .error "timeout"
  parseParagraphs := fun _ => .ok []
  ocrRun := fun _ => .error "no ocr"
  genContent := fun _ => .error "no model"

/-- C8: provided the search provider honors the requested result count
of 3, every pipeline run retains in its source list exactly the
results with a usable link — a result whose fetch fails is still
retained (the loop records its URL and an evidence entry regardless of
the scrape outcome), a result without a usable link is skipped — and
the number of retained sources never exceeds the number of search
results, which never exceeds 3. -/
theorem claim_C8 (cfg : Config) (env : Env) (claim : String) (t : Trace)
    (hcap : ∀ items, env.searchRun claim 3 = .ok items → items.length ≤ 3) :
    ∀ rs t1, search_the_web_google cfg env claim t = (.ok rs, t1) →
      ∃ ctx2 t2,
        fetchLoop env rs.enum "" [] t1 =
          (.ok (ctx2, rs.enum.filterMap (fun p => pyLink p.2.link)), t2) ∧
        (rs.enum.filterMap (fun p => pyLink p.2.link)).length ≤ rs.length ∧
        rs.length ≤ 3 := by
  intro rs t1 hs
  obtain ⟨ctx2, t2, hloop⟩ := fetchLoop_spec env rs.enum "" [] t1
  simp only [List.nil_append] at hloop
  refine ⟨ctx2, t2, hloop, ?_, ?_⟩
  · calc (rs.enum.filterMap (fun p => pyLink p.2.link)).length
        ≤ rs.enum.length := List.length_filterMap_le _ _
      _ = rs.length := List.enum_length
  · by_cases hk : (!(pyTruthy cfg.GOOGLE_API_KEY) ||
        !(pyTruthy cfg.SEARCH_ENGINE_ID)) = true
    · have hrs : rs = [] := by
        simp [search_the_web_google, hk] at hs
        exact hs.1
      simp [hrs]
    · cases h : env.searchRun claim 3 with
      | ok items =>
        have hrs : rs = items := by
          simp [search_the_web_google, hk, h] at hs
          exact hs.1.symm
        rw [hrs]
        exact hcap items h
      | error e =>
        have hrs : rs = [] := by
          simp [search_the_web_google, hk, h] at hs
          exact hs.1
        simp [hrs]

/-- Witness for C8 at a concrete input: two results, one usable link,
every fetch failing. -/
theorem claim_C8_witness :
    ∃ ctx2 t2,
      fetchLoop envC8 rsC8.enum "" [] [Event.searchE "c"] =
        (.ok (ctx2, rsC8.enum.filterMap (fun p => pyLink p.2.link)), t2) ∧
      (rsC8.enum.filterMap (fun p => pyLink p.2.link)).length ≤
        rsC8.length ∧
      rsC8.length ≤ 3 :=
  claim_C8 cfgGoogle envC8 "c" []
    (fun items h => by
      have h2 : rsC8 = items := Except.ok.inj h
      rw [← h2]
      decide)
    rsC8 [Event.searchE "c"] rfl

/-- An environment whose server answers with a page of two paragraphs. -/
def envC9 : Env where
  searchRun := fun _ _ => .ok []
  httpGet := fun _ => .ok ⟨200, "<p>a</p><p>b</p>"⟩
  parseParagraphs := fun _ => .ok ["a", "b"]
  ocrRun := fun _ => .error "no ocr"
  genContent := fun _ => .error "no model"

/-- C9: when both the GET and the HTML parse succeed,
`scrape_url_content` returns exactly the paragraph texts joined with
single spaces and truncated to the first 2500 characters. -/
theorem claim_C9 (env : Env) (url : String) (t : Trace) (resp : HttpResp)
    (paragraphs : List String)
    (h1 : env.httpGet url = .ok resp)
    (h2 : env.parseParagraphs resp.content = .ok paragraphs) :
    scrape_url_content env url t =
      (.ok (pyTake 2500 (pyJoin " " paragraphs)),
        t ++ [Event.fetchE url]) := by
  simp [scrape_url_content, h1, h2]

/-- Witness for C9 at a concrete input: paragraphs `a` and `b` join to
`a b`. -/
theorem claim_C9_witness :
    scrape_url_content envC9 "http://a" [] =
      (.ok "a b", [Event.fetchE "http://a"]) :=
  (claim_C9 envC9 "http://a" [] ⟨200, "<p>a</p><p>b</p>"⟩ ["a", "b"]
    rfl rfl).trans rfl

/-- C10: with a non-empty image payload supplied, the pipeline result
is independent of the user text (only the OCR text is used), the
invocation still returns a string, and with no image payload the
pipeline dispatches on the user text. -/
theorem claim_C10 (cfg : Config) (env : Env) (ui1 ui2 : String)
    (bs : List Nat) (t : Trace) (hbs : bs ≠ []) :
    freaksearch_handler cfg env ui1 (some bs) t =
      freaksearch_handler cfg env ui2 (some bs) t ∧
    (∃ s t2, freaksearch_handler cfg env ui1 (some bs) t = (.ok s, t2)) ∧
    freaksearch_handler cfg env ui1 none t = handlerTail cfg env ui1 t := by
  have hb : pyBytesTruthy (some bs) = true := by
    simp [pyBytesTruthy, hbs]
  refine ⟨?_, handler_total cfg env ui1 (some bs) t, ?_⟩
  · simp [freaksearch_handler, hb]
  · simp [freaksearch_handler, pyBytesTruthy]

/-- Witness for C10 at a concrete input: a one-byte payload. -/
theorem claim_C10_witness :
    freaksearch_handler cfgNone env0 "textA" (some [1]) [] =
      freaksearch_handler cfgNone env0 "textB" (some [1]) [] ∧
    (∃ s t2, freaksearch_handler cfgNone env0 "textA" (some [1]) [] =
      (.ok s, t2)) ∧
    freaksearch_handler cfgNone env0 "textA" none [] =
      handlerTail cfgNone env0 "textA" [] :=
  claim_C10 cfgNone env0 "textA" "textB" [1] [] (by decide)

end FreakSearch
